import Mathlib

/-!
Shallow embedding of the Groq customer-service pipeline
(build-with-groq/groq-customer-service-template).

The embedding follows the Python source:
 - `src/base.py`            : `BaseAgent._make_groq_request` (retry loop)
 - `src/guard_agent.py`     : `GuardAgent.check_safety`, `_parse_llamaguard_response`
 - `src/tone_agent.py`      : `ToneAgent.validate_tone`, `_parse_tone_response`
 - `src/human_loop.py`      : `PipelineStep`, `PipelineProgress`, tracker
                              mutations, `reset_demo`, `request_review`
 - `src/api/pipeline_demo_vercel.py` : `process_single_scenario`,
                              `process_single_scenario_with_tracking`,
                              `_request_review_via_tracker`, `_create_failed_result`

Python floats (latencies, wall-clock times) are modelled as rationals;
the AI model service is modelled as an oracle giving the outcome of each
call; background threads and the polling loop are modelled by the FIFO
list of results observed on the shared queue during a wait window.
-/

namespace GroqCS

/-! ## String helpers (Python `str.upper`, `str.strip`, `in`) -/

/-- Python's `pat in hay` on strings: `pat` occurs contiguously in `hay`
(checked at every suffix). -/
def isSubstrOf (pat : List Char) : List Char → Bool
  | [] => pat.isPrefixOf []
  | c :: rest => pat.isPrefixOf (c :: rest) || isSubstrOf pat rest

/-- Python's `str.upper` (basic-latin case mapping, per-character). -/
def pyUpper (l : List Char) : List Char := l.map Char.toUpper

/-- Python's `str.strip`: drop leading and trailing whitespace. -/
def pyStrip (l : List Char) : List Char :=
  ((l.dropWhile Char.isWhitespace).reverse.dropWhile Char.isWhitespace).reverse

/-- `response.strip().upper()` as used by both parsers. -/
def normalizeResp (s : String) : List Char := pyUpper (pyStrip s.data)

/-! ## Moderation results (`src/utils.py`) -/

/-- `utils.ModerationResult` -/
structure ModerationResult where
  passes : Bool
  confidence : ℚ
  issues : List String
  latency_ms : ℚ
deriving DecidableEq, Repr

/-- `utils.PipelineResult` -/
structure PipelineResult where
  scenario_id : String
  customer_input : String
  final_response : String
  ai_time : ℚ
  total_time : ℚ
  human_time : Option ℚ
  safety_issues : List String
  tone_issues : List String
  success : Bool
deriving DecidableEq, Repr

/-! ## Safety parser (`guard_agent.GuardAgent._parse_llamaguard_response`) -/

/-- The `category_names` dict of `_parse_llamaguard_response`, in insertion
order. -/
def category_names : List (String × String) :=
  [("O1", "violence_hate"), ("O2", "sexual_content"), ("O3", "weapons"),
   ("O4", "substances"), ("O5", "self_harm"), ("O6", "criminal_planning")]

/-- The `unsafe_keywords` list of `_parse_llamaguard_response`. -/
def unsafe_keywords : List String :=
  ["harmful", "violation", "inappropriate", "dangerous"]

/-- `GuardAgent._parse_llamaguard_response` (guard_agent.py lines 100-133):
returns `(is_safe, violations)`. -/
def parse_llamaguard_response (response : String) : Bool × List String :=
  let response_clean := normalizeResp response
  if isSubstrOf "UNSAFE".data response_clean then
    let violations :=
      (category_names.filter (fun p => isSubstrOf p.1.data response_clean)).map
        (fun p => p.2)
    if violations = [] then (false, ["content_violation"]) else (false, violations)
  else if unsafe_keywords.any (fun k => isSubstrOf k.data response_clean) then
    (false, ["potential_violation"])
  else
    (true, [])

/-! ## Tone parser (`tone_agent.ToneAgent._parse_tone_response`) -/

/-- The `issue_patterns` dict of `_parse_tone_response`, in insertion order. -/
def issue_patterns : List (String × String) :=
  [("CASUAL", "casual_language"), ("DISMISSIVE", "dismissive_language"),
   ("UNPROFESSIONAL", "unprofessional_tone"), ("JARGON", "technical_jargon"),
   ("BLAME", "blame_language"), ("ABSOLUTE", "absolute_statements"),
   ("INAPPROPRIATE", "inappropriate_language"), ("URGENCY", "inappropriate_urgency"),
   ("EMOTION", "inappropriate_emotions")]

/-- `ToneAgent._parse_tone_response` (tone_agent.py lines 109-140):
returns `(passes, issues)`. -/
def parse_tone_response (response : String) : Bool × List String :=
  let response_clean := normalizeResp response
  if isSubstrOf "FAIL".data response_clean then
    let issues :=
      (issue_patterns.filter (fun p => isSubstrOf p.1.data response_clean)).map
        (fun p => p.2)
    if issues = [] then (false, ["tone_violation"]) else (false, issues)
  else
    (true, [])

/-! ## Model client (`base.BaseAgent._make_groq_request`) -/

/-- One outcome of the external text-generation service: the call either
raises (network/timeout error) or returns a response whose content is the
given string (possibly empty). -/
inductive ServiceResp where
  | raiseExc (msg : String)
  | respond (content : String)

/-- The body of one loop iteration of `_make_groq_request`: an exception
becomes an error, an empty content raises
`ValueError("Empty response from Groq API")` (caught by the same handler),
and otherwise the stripped content is returned. -/
def attemptOnce : ServiceResp → Except String String
  | .raiseExc m => .error m
  | .respond c => if c = "" then .error "Empty response from Groq API" else .ok (String.mk (pyStrip c.data))

/-- The `for attempt in range(max_retries)` loop of `_make_groq_request`,
with `remaining = max_retries - attempt` as structural fuel.  Returns the
call outcome (`none` models Python falling off the loop and returning
`None`, reachable only when `max_retries = 0`), the number of attempts
performed, and the list of back-off waits performed between attempts. -/
def groqAttempts (service : ℕ → ServiceResp) (retry_delay : ℚ) (max_retries : ℕ) :
    ℕ → ℕ → Option (Except String String) × ℕ × List ℚ
  | 0, _ => (none, 0, [])
  | _remaining + 1, attempt =>
    match attemptOnce (service attempt) with
    | .ok content => (some (.ok content), 1, [])
    | .error e =>
      if attempt = max_retries - 1 then
        (some (.error ("Groq API request failed after " ++ toString max_retries ++
          " attempts: " ++ e)), 1, [])
      else
        let wait_time := retry_delay * 2 ^ attempt
        let rest := groqAttempts service retry_delay max_retries _remaining (attempt + 1)
        (rest.1, rest.2.1 + 1, wait_time :: rest.2.2)

/-- `BaseAgent._make_groq_request` (base.py lines 27-66): retry up to
`max_retries` with exponential back-off `retry_delay * 2 ^ attempt`. -/
def make_groq_request (service : ℕ → ServiceResp) (retry_delay : ℚ)
    (max_retries : ℕ) : Option (Except String String) × ℕ × List ℚ :=
  groqAttempts service retry_delay max_retries max_retries 0

/-! ## Safety and tone agents (`guard_agent.py`, `tone_agent.py`) -/

/-- `GuardAgent.check_safety` (guard_agent.py lines 51-87), as a function of
the outcome of the underlying model call and the measured latency.  Any
exception from the call (including the `None` fall-through) is caught and
converted into the fail-open result. -/
def check_safety (call : Option (Except String String)) (latency : ℚ) :
    ModerationResult × ℚ :=
  match call with
  | some (.ok response) =>
    let parsed := parse_llamaguard_response response
    ({ passes := parsed.1, confidence := 95 / 100,
       issues := if parsed.1 then [] else parsed.2, latency_ms := latency }, latency)
  | _ =>
    ({ passes := true, confidence := 0, issues := ["safety_check_error"],
       latency_ms := latency }, latency)

/-- `ToneAgent.validate_tone` (tone_agent.py lines 60-96), as a function of
the outcome of the underlying model call and the measured latency. -/
def validate_tone (call : Option (Except String String)) (latency : ℚ) :
    ModerationResult × ℚ :=
  match call with
  | some (.ok response) =>
    let parsed := parse_tone_response response
    ({ passes := parsed.1, confidence := 9 / 10, issues := parsed.2,
       latency_ms := latency }, latency)
  | _ =>
    ({ passes := true, confidence := 0, issues := ["tone_validation_error"],
       latency_ms := latency }, latency)

/-- `GuardAgent.check_safety` composed over `_make_groq_request` with the
configured `max_retries = 3` (config.py). -/
def check_safety_via_groq (service : ℕ → ServiceResp) (retry_delay latency : ℚ) :
    ModerationResult × ℚ :=
  check_safety (make_groq_request service retry_delay 3).1 latency

/-- `ToneAgent.validate_tone` composed over `_make_groq_request` with the
configured `max_retries = 3` (config.py). -/
def validate_tone_via_groq (service : ℕ → ServiceResp) (retry_delay latency : ℚ) :
    ModerationResult × ℚ :=
  validate_tone (make_groq_request service retry_delay 3).1 latency

/-! ## Human review rendezvous (`human_loop.py`, `pipeline_demo_vercel.py`) -/

/-- `human_loop.HumanReviewResult` (and the structurally identical
`TimeoutResult` of `_request_review_via_tracker`). -/
structure HumanReviewResult where
  original_response : String
  edited_response : String
  human_time_ms : ℚ
  customer_input : String
  review_notes : Option String
deriving DecidableEq, Repr

/-- `HumanLoopManager.request_review` (human_loop.py lines 500-535).  The
producer puts the request on `review_queue` and then polls the *shared*
`result_queue` until the timeout elapses; `arrivals` is the FIFO content
of that shared queue as observed during the wait window (whatever results
any reviewer resolves while this producer is waiting).  The code takes
the first available result, whichever request it belongs to; if none
arrives before the timeout it builds the synthetic timeout result. -/
def request_review (customer_input ai_response : String) (timeout : ℚ)
    (arrivals : List HumanReviewResult) : HumanReviewResult :=
  match arrivals with
  | result :: _ => result
  | [] =>
    { original_response := ai_response, edited_response := ai_response,
      human_time_ms := timeout * 1000, customer_input := customer_input,
      review_notes := some "Timed out - using original response" }

/-- `GroqCustomerServiceDemo._request_review_via_tracker`
(pipeline_demo_vercel.py lines 293-330): same queue-put / shared-queue-poll /
timeout-fallback logic as `request_review`, duplicated in the source. -/
def request_review_via_tracker (customer_input ai_response : String) (timeout : ℚ)
    (arrivals : List HumanReviewResult) : HumanReviewResult :=
  request_review customer_input ai_response timeout arrivals

/-! ## Pipeline orchestrator (`api/pipeline_demo_vercel.py`) -/

/-- The environment of one pipeline run: the outcome of each agent call the
orchestrator can make, in call order.  Stages whose input depends on the
text produced so far (second safety check, tone checks, rewrite) are
functions of that text; `review_arrivals` and `human_elapsed_ms` model the
human-review wait (see `request_review`); `elapsed_ms` is the wall-clock
span `(time.perf_counter() - pipeline_start) * 1000` measured at the end
of a successful run. -/
structure StageEnv where
  safety1 : ModerationResult × ℚ
  gen_response : String × ℚ
  review_arrivals : List HumanReviewResult
  human_elapsed_ms : ℚ
  safety2 : String → ModerationResult × ℚ
  tone1 : String → ModerationResult × ℚ
  rewrite_pro : String → List String → String × ℚ
  tone2 : String → ModerationResult × ℚ
  elapsed_ms : ℚ

/-- The stages a pipeline run actually invokes, in order. -/
inductive StageTag where
  | safetyCheck1
  | responseGeneration
  | humanReview
  | safetyCheck2
  | toneValidation
  | contentRewrite
  | toneRecheck
deriving DecidableEq, Repr

/-- A call the tracked pipeline variant makes on the progress tracker. -/
inductive TrackEvent where
  | step (step_name details : String) (model_used : Option String)
  | completeStep (details status : String)
  | donePipeline
deriving DecidableEq, Repr

/-- `GroqCustomerServiceDemo._create_failed_result`
(pipeline_demo_vercel.py lines 332-355). -/
def create_failed_result (scenario_id customer_input error_message : String)
    (safety_issues tone_issues : List String) : PipelineResult :=
  { scenario_id := scenario_id, customer_input := customer_input,
    final_response := "Processing failed: " ++ error_message,
    ai_time := 0, total_time := 0, human_time := none,
    safety_issues := safety_issues, tone_issues := tone_issues,
    success := false }

/-- `GroqCustomerServiceDemo.process_single_scenario`
(pipeline_demo_vercel.py lines 40-139), the untracked variant.  Human
review is skipped unconditionally ("Skip human review in Vercel version
for now"), so `human_time = 0` and `final_response = ai_response` entering
phase 4.  Returns the terminal `PipelineResult` together with the list of
stages invoked. -/
def process_single_scenario (env : StageEnv) (scenario_id customer_input : String) :
    PipelineResult × List StageTag :=
  let safety_result := env.safety1.1
  let guard1_time := env.safety1.2
  if safety_result.passes then
    let ai_response := env.gen_response.1
    let response_time := env.gen_response.2
    let human_time : ℚ := 0
    let final_response := ai_response
    let final_safety := (env.safety2 final_response).1
    let guard2_time := (env.safety2 final_response).2
    if final_safety.passes then
      let tone_result := (env.tone1 final_response).1
      let tone_time := (env.tone1 final_response).2
      if tone_result.passes then
        let rewrite_time : ℚ := 0
        let original_tone_issues : List String := []
        let ai_time := guard1_time + response_time + guard2_time + tone_time + rewrite_time
        ({ scenario_id := scenario_id, customer_input := customer_input,
           final_response := final_response, ai_time := ai_time,
           total_time := env.elapsed_ms,
           human_time := if human_time > 0 then some human_time else none,
           safety_issues := if safety_result.passes then [] else safety_result.issues,
           tone_issues := original_tone_issues, success := true },
         [.safetyCheck1, .responseGeneration, .safetyCheck2, .toneValidation])
      else
        let original_tone_issues := tone_result.issues
        let rewritten := (env.rewrite_pro final_response tone_result.issues).1
        let rewrite_time0 := (env.rewrite_pro final_response tone_result.issues).2
        let final_tone_time := (env.tone2 rewritten).2
        let rewrite_time := rewrite_time0 + final_tone_time
        let ai_time := guard1_time + response_time + guard2_time + tone_time + rewrite_time
        ({ scenario_id := scenario_id, customer_input := customer_input,
           final_response := rewritten, ai_time := ai_time,
           total_time := env.elapsed_ms,
           human_time := if human_time > 0 then some human_time else none,
           safety_issues := if safety_result.passes then [] else safety_result.issues,
           tone_issues := original_tone_issues, success := true },
         [.safetyCheck1, .responseGeneration, .safetyCheck2, .toneValidation,
          .contentRewrite, .toneRecheck])
    else
      (create_failed_result scenario_id customer_input "Final safety check failed"
         final_safety.issues [],
       [.safetyCheck1, .responseGeneration, .safetyCheck2])
  else
    (create_failed_result scenario_id customer_input "Initial safety check failed"
       safety_result.issues [],
     [.safetyCheck1])

/-- Stand-in for Python's `f"{x:.1f}"` number formatting inside tracker
detail strings (presentation only; no claim depends on it). -/
def fmt1 (q : ℚ) : String := toString q

/-- Model names from `config.py` used in tracker step records. -/
def guard_model : String := "meta-llama/Llama-Guard-4-12B"

/-- `config.response_model` -/
def response_model : String := "meta-llama/llama-4-maverick-17b-128e-instruct"

/-- `config.tone_model` -/
def tone_model : String := "meta-llama/llama-4-scout-17b-16e-instruct"

/-- `config.rewrite_model` -/
def rewrite_model : String := "meta-llama/llama-4-maverick-17b-128e-instruct"

/-- `GroqCustomerServiceDemo.process_single_scenario_with_tracking`
(pipeline_demo_vercel.py lines 141-291), the tracked variant.
`cfg_human_review_timeout` is `config.human_review_timeout` (default 300).
Returns the terminal `PipelineResult`, the stages invoked, and the tracker
calls emitted, in order. -/
def process_single_scenario_with_tracking (cfg_human_review_timeout : ℚ)
    (env : StageEnv) (scenario_id customer_input : String) :
    PipelineResult × List StageTag × List TrackEvent :=
  let safety_result := env.safety1.1
  let guard1_time := env.safety1.2
  let ev1 : List TrackEvent :=
    [.step "safety_check" "Checking customer input for safety violations" (some guard_model)]
  if safety_result.passes then
    let ev2 := ev1 ++
      [.completeStep ("Safety check PASSED in " ++ fmt1 guard1_time ++ "ms") "completed",
       .step "response_generation" "Generating professional customer service response"
         (some response_model)]
    let ai_response := env.gen_response.1
    let response_time := env.gen_response.2
    let ev3 := ev2 ++
      [.completeStep ("Response generated (" ++ toString ai_response.length ++
         " chars) in " ++ fmt1 response_time ++ "ms") "completed"]
    -- Phase 3: human review (only when the configured timeout is positive)
    let reviewed : ℚ × String × List TrackEvent × List StageTag :=
      if cfg_human_review_timeout > 0 then
        let human_result := request_review_via_tracker customer_input ai_response
          cfg_human_review_timeout env.review_arrivals
        let human_time := env.human_elapsed_ms
        let final_response := human_result.edited_response
        let changes_made := final_response.length != ai_response.length ||
          final_response != ai_response
        (human_time, final_response,
         [.step "human_review" "Waiting for human review and approval" none,
          .completeStep ("Human review completed in " ++ fmt1 human_time ++ "ms - " ++
            (if changes_made then "Changes made" else "No changes")) "completed"],
         [.humanReview])
      else
        (0, ai_response,
         [.step "human_review" "Human review disabled - skipping" none,
          .completeStep "Human review skipped (disabled in config)" "completed"],
         [])
    let human_time := reviewed.1
    let final_response := reviewed.2.1
    let ev4 := ev3 ++ reviewed.2.2.1 ++
      [.step "final_safety" "Final safety check on approved response" (some guard_model)]
    let reviewTags := reviewed.2.2.2
    let final_safety := (env.safety2 final_response).1
    let guard2_time := (env.safety2 final_response).2
    if final_safety.passes then
      let ev5 := ev4 ++
        [.completeStep ("Final safety check PASSED in " ++ fmt1 guard2_time ++ "ms")
           "completed",
         .step "tone_validation" "Validating professional tone and language"
           (some tone_model)]
      let tone_result := (env.tone1 final_response).1
      let tone_time := (env.tone1 final_response).2
      if tone_result.passes then
        let ev6 := ev5 ++
          [.completeStep ("Tone validation PASSED in " ++ fmt1 tone_time ++ "ms")
             "completed"]
        let rewrite_time : ℚ := 0
        let original_tone_issues : List String := []
        let ai_time := guard1_time + response_time + guard2_time + tone_time + rewrite_time
        ({ scenario_id := scenario_id, customer_input := customer_input,
           final_response := final_response, ai_time := ai_time,
           total_time := env.elapsed_ms,
           human_time := if human_time > 0 then some human_time else none,
           safety_issues := if safety_result.passes then [] else safety_result.issues,
           tone_issues := original_tone_issues, success := true },
         [.safetyCheck1, .responseGeneration] ++ reviewTags ++
           [.safetyCheck2, .toneValidation],
         ev6 ++ [.donePipeline])
      else
        let original_tone_issues := tone_result.issues
        let ev6 := ev5 ++
          [.completeStep ("Tone validation FAILED: " ++
             String.intercalate ", " tone_result.issues) "completed",
           .step "content_rewrite" "Rewriting content to improve professional tone"
             (some rewrite_model)]
        let rewritten := (env.rewrite_pro final_response tone_result.issues).1
        let rewrite_time0 := (env.rewrite_pro final_response tone_result.issues).2
        let final_tone_result := (env.tone2 rewritten).1
        let final_tone_time := (env.tone2 rewritten).2
        let rewrite_time := rewrite_time0 + final_tone_time
        let ev7 := ev6 ++
          [if final_tone_result.passes then
             .completeStep ("Content successfully rewritten in " ++ fmt1 rewrite_time ++
               "ms") "completed"
           else
             .completeStep ("Content rewritten in " ++ fmt1 rewrite_time ++
               "ms - some tone issues persist") "completed"]
        let ai_time := guard1_time + response_time + guard2_time + tone_time + rewrite_time
        ({ scenario_id := scenario_id, customer_input := customer_input,
           final_response := rewritten, ai_time := ai_time,
           total_time := env.elapsed_ms,
           human_time := if human_time > 0 then some human_time else none,
           safety_issues := if safety_result.passes then [] else safety_result.issues,
           tone_issues := original_tone_issues, success := true },
         [.safetyCheck1, .responseGeneration] ++ reviewTags ++
           [.safetyCheck2, .toneValidation, .contentRewrite, .toneRecheck],
         ev7 ++ [.donePipeline])
    else
      (create_failed_result scenario_id customer_input "Final safety check failed"
         final_safety.issues [],
       [.safetyCheck1, .responseGeneration] ++ reviewTags ++ [.safetyCheck2],
       ev4 ++
         [.completeStep ("Final safety check FAILED: " ++
            String.intercalate ", " final_safety.issues) "completed",
          .completeStep "Safety fixes failed - pipeline terminated" "failed"])
  else
    (create_failed_result scenario_id customer_input "Initial safety check failed"
       safety_result.issues [],
     [.safetyCheck1],
     ev1 ++ [.completeStep ("Safety check FAILED: " ++
       String.intercalate ", " safety_result.issues) "failed"])

/-! ## Progress tracker (`human_loop.py`) -/

/-- `human_loop.PipelineStep` (lines 16-30). -/
structure PipelineStep where
  step_name : String
  start_time : ℚ
  end_time : Option ℚ
  status : String
  details : String
  model_used : Option String
deriving DecidableEq, Repr

/-- `human_loop.PipelineProgress` (lines 32-60). -/
structure PipelineProgress where
  scenario_id : String
  customer_input : String
  steps : List PipelineStep
  current_step : ℕ
  total_steps : ℕ
  start_time : Option ℚ
  end_time : Option ℚ
deriving DecidableEq, Repr

/-- `PipelineProgress.add_step` (lines 43-52); `now` models `time.time()`. -/
def add_step (p : PipelineProgress) (now : ℚ) (step_name details : String)
    (model_used : Option String) : PipelineProgress :=
  let step : PipelineStep :=
    { step_name := step_name, start_time := now, end_time := none,
      status := "running", details := details, model_used := model_used }
  { p with steps := p.steps ++ [step], current_step := (p.steps ++ [step]).length }

/-- In-place mutation of the last list element (`self.steps[-1]`). -/
def updateLast (f : PipelineStep → PipelineStep) : List PipelineStep → List PipelineStep
  | [] => []
  | [a] => [f a]
  | a :: b :: rest => a :: updateLast f (b :: rest)

/-- `PipelineProgress.complete_current_step` (lines 54-60): if any step
exists, set the last step's `end_time` and `status`, and overwrite its
`details` only when the given `details` string is non-empty (Python
truthiness of `if details:`). -/
def complete_current_step (p : PipelineProgress) (now : ℚ) (details status : String) :
    PipelineProgress :=
  if p.steps = [] then p
  else
    let upd := fun (current : PipelineStep) =>
      { current with
        end_time := some now
        status := status
        details := if details = "" then current.details else details }
    { p with steps := updateLast upd p.steps }

/-- The `pipeline_progress` dict of `HumanLoopManager`
(`{scenario_id: PipelineProgress}`), as an association list with unique
keys understood. -/
abbrev ProgressMap := List (String × PipelineProgress)

/-- Python's `scenario_id in self.pipeline_progress`. -/
def containsKey (m : ProgressMap) (scenario_id : String) : Bool :=
  m.any (fun e => e.1 = scenario_id)

/-- `HumanLoopManager.track_pipeline_step` (lines 380-384): mutate the
entry only if the id is present, otherwise do nothing. -/
def track_pipeline_step (m : ProgressMap) (scenario_id : String) (now : ℚ)
    (step_name details : String) (model_used : Option String) : ProgressMap :=
  m.map (fun e =>
    if e.1 = scenario_id then (e.1, add_step e.2 now step_name details model_used) else e)

/-- `HumanLoopManager.complete_pipeline_step` (lines 386-390). -/
def complete_pipeline_step (m : ProgressMap) (scenario_id : String) (now : ℚ)
    (details status : String) : ProgressMap :=
  m.map (fun e =>
    if e.1 = scenario_id then (e.1, complete_current_step e.2 now details status) else e)

/-- `HumanLoopManager.complete_pipeline` (lines 392-396): set the run's
`end_time` if the id is present. -/
def complete_pipeline (m : ProgressMap) (scenario_id : String) (now : ℚ) : ProgressMap :=
  m.map (fun e =>
    if e.1 = scenario_id then (e.1, { e.2 with end_time := some now }) else e)

/-- `self.pipeline_progress.get(scenario_id)`, the read used by
`get_pipeline_progress` (lines 240-276) before building the snapshot
(`'no_progress'` when absent). -/
def get_progress (m : ProgressMap) (scenario_id : String) : Option PipelineProgress :=
  (m.find? (fun e => e.1 = scenario_id)).map (fun e => e.2)

/-- The demo-manager state mutated by `reset_demo` (human_loop.py). -/
structure ManagerState where
  pipeline_progress : ProgressMap
  review_queue : List (String × String)
  result_queue : List HumanReviewResult
  active_reviews : List (String × String × String)
  demo_state : String
  current_scenario_index : ℕ
  demo_results : List PipelineResult
  current_scenario_id : Option String
deriving Repr

/-- The `/api/reset_demo` route handler `reset_demo` (human_loop.py lines
338-368): demo fields back to idle, progress map cleared, active reviews
cleared, both queues drained. -/
def reset_demo (_st : ManagerState) : ManagerState :=
  { pipeline_progress := [], review_queue := [], result_queue := [],
    active_reviews := [], demo_state := "idle", current_scenario_index := 0,
    demo_results := [], current_scenario_id := none }

/-! ## Helper lemmas -/

theorem toNat_ofNat_valid (n : Nat) (h : n.isValidChar) : (Char.ofNat n).toNat = n := by
  rw [Char.ofNat, dif_pos h]
  simp [Char.ofNatAux, Char.toNat, UInt32.toNat, BitVec.toNat_ofNatLt]

/-- `Char.toUpper` never produces a basic-latin lowercase letter, so the
lowercase `unsafe_keywords` of `_parse_llamaguard_response` can never match
the uppercased response text. -/
theorem toUpper_not_lower (c : Char) :
    ¬ (97 ≤ (Char.toUpper c).toNat ∧ (Char.toUpper c).toNat ≤ 122) := by
  by_cases hc : c.toNat ≥ 97 ∧ c.toNat ≤ 122
  · have h : Char.toUpper c = Char.ofNat (c.toNat - 32) := by
      unfold Char.toUpper
      exact if_pos hc
    rw [h, toNat_ofNat_valid]
    · omega
    · left
      omega
  · have h : Char.toUpper c = c := by
      unfold Char.toUpper
      exact if_neg hc
    rw [h]
    omega

theorem isSubstrOf_head_mem {c : Char} {ps hay : List Char}
    (h : isSubstrOf (c :: ps) hay = true) : c ∈ hay := by
  induction hay with
  | nil => simp [isSubstrOf, List.isPrefixOf] at h
  | cons x xs ih =>
    simp only [isSubstrOf, Bool.or_eq_true] at h
    rcases h with h1 | h2
    · simp only [List.isPrefixOf, Bool.and_eq_true, beq_iff_eq] at h1
      exact h1.1 ▸ List.mem_cons_self x xs
    · exact List.mem_cons_of_mem x (ih h2)

/-- A pattern whose first character is a basic-latin lowercase letter never
occurs in an uppercased text. -/
theorem keyword_not_found (c : Char) (ps : List Char)
    (hc : 97 ≤ c.toNat ∧ c.toNat ≤ 122) (s : List Char) :
    isSubstrOf (c :: ps) (pyUpper s) = false := by
  by_contra h
  have hmem : c ∈ pyUpper s :=
    isSubstrOf_head_mem (eq_true_of_ne_false h)
  rcases List.mem_map.mp hmem with ⟨d, _, hd⟩
  exact toUpper_not_lower d (hd ▸ hc)

/-! ## Claims -/

/-- C7: for every model response string, the safety parser
(`_parse_llamaguard_response`) passes whenever the normalized text lacks
the "UNSAFE" marker, the tone parser (`_parse_tone_response`) passes
whenever the normalized text lacks the "FAIL" marker, and whenever either
parser returns a failing classification its issue list is non-empty. -/
theorem parsers_pass_without_marker_and_fail_nonempty (response : String) :
    (isSubstrOf "UNSAFE".data (normalizeResp response) = false →
      (parse_llamaguard_response response).1 = true) ∧
    ((parse_llamaguard_response response).1 = false →
      (parse_llamaguard_response response).2 ≠ []) ∧
    (isSubstrOf "FAIL".data (normalizeResp response) = false →
      (parse_tone_response response).1 = true) ∧
    ((parse_tone_response response).1 = false →
      (parse_tone_response response).2 ≠ []) := by
  have k1 : isSubstrOf "harmful".data (normalizeResp response) = false :=
    keyword_not_found 'h' "armful".data (by decide) (pyStrip response.data)
  have k2 : isSubstrOf "violation".data (normalizeResp response) = false :=
    keyword_not_found 'v' "iolation".data (by decide) (pyStrip response.data)
  have k3 : isSubstrOf "inappropriate".data (normalizeResp response) = false :=
    keyword_not_found 'i' "nappropriate".data (by decide) (pyStrip response.data)
  have k4 : isSubstrOf "dangerous".data (normalizeResp response) = false :=
    keyword_not_found 'd' "angerous".data (by decide) (pyStrip response.data)
  refine ⟨?_, ?_, ?_, ?_⟩
  · intro h
    simp [parse_llamaguard_response, h, unsafe_keywords, k1, k2, k3, k4]
  · intro h
    by_cases h1 : isSubstrOf "UNSAFE".data (normalizeResp response) = true
    · simp only [parse_llamaguard_response, h1, if_true]
      split
      · simp
      · rename_i hvs
        simpa using hvs
    · simp [parse_llamaguard_response, h1, unsafe_keywords, k1, k2, k3, k4] at h
  · intro h
    simp [parse_tone_response, h]
  · intro h
    by_cases h1 : isSubstrOf "FAIL".data (normalizeResp response) = true
    · simp only [parse_tone_response, h1, if_true]
      split
      · simp
      · rename_i hvs
        simpa using hvs
    · simp [parse_tone_response, h1] at h

/-- Witness for C7 at concrete inputs: a response without the marker
passes, and a failing response carries a non-empty issue list. -/
theorem parsers_pass_without_marker_and_fail_nonempty_witness :
    (parse_llamaguard_response "SAFE").1 = true ∧
    (parse_tone_response "FAIL").2 ≠ [] :=
  ⟨(parsers_pass_without_marker_and_fail_nonempty "SAFE").1 (by decide),
   (parsers_pass_without_marker_and_fail_nonempty "FAIL").2.2.2 (by decide)⟩

/-- C4: with `max_retries = 3`, a service `s` that fails on attempts 0 and
1 and succeeds on attempt 2 makes the call return attempt 2's content with
exactly 3 attempts and waits `retry_delay * 2 ^ 0` then
`retry_delay * 2 ^ 1` (non-decreasing for a non-negative delay); a
service `t` failing on all 3 attempts makes the call raise an error
carrying the last cause. -/
theorem make_groq_request_retry_backoff
    (s t : ℕ → ServiceResp) (d : ℚ) (c e0 e1 f0 f1 f2 : String)
    (hd : 0 ≤ d)
    (hs0 : attemptOnce (s 0) = .error e0)
    (hs1 : attemptOnce (s 1) = .error e1)
    (hs2 : attemptOnce (s 2) = .ok c)
    (ht0 : attemptOnce (t 0) = .error f0)
    (ht1 : attemptOnce (t 1) = .error f1)
    (ht2 : attemptOnce (t 2) = .error f2) :
    make_groq_request s d 3 = (some (.ok c), 3, [d * 2 ^ 0, d * 2 ^ 1]) ∧
    d * 2 ^ 0 ≤ d * 2 ^ 1 ∧
    make_groq_request t d 3 =
      (some (.error ("Groq API request failed after 3 attempts: " ++ f2)), 3,
        [d * 2 ^ 0, d * 2 ^ 1]) := by
  refine ⟨?_, ?_, ?_⟩
  · simp [make_groq_request, groqAttempts, hs0, hs1, hs2]
  · rw [pow_zero, pow_one]
    nlinarith
  · have h3 : toString (3 : ℕ) = "3" := rfl
    simp [make_groq_request, groqAttempts, ht0, ht1, ht2, h3]

/-- Service for the C4 witness: fails twice, then succeeds. -/
def sC4 : ℕ → ServiceResp := fun i => if i < 2 then .raiseExc "boom" else .respond "OK"

/-- Service for the C4 witness: always fails. -/
def tC4 : ℕ → ServiceResp := fun _ => .raiseExc "down"

/-- Witness for C4 at a concrete service pair and `retry_delay = 1`. -/
theorem make_groq_request_retry_backoff_witness :
    make_groq_request sC4 1 3 = (some (.ok "OK"), 3, [1 * 2 ^ 0, 1 * 2 ^ 1]) ∧
    (1 : ℚ) * 2 ^ 0 ≤ 1 * 2 ^ 1 ∧
    make_groq_request tC4 1 3 =
      (some (.error ("Groq API request failed after 3 attempts: " ++ "down")), 3,
        [1 * 2 ^ 0, 1 * 2 ^ 1]) :=
  make_groq_request_retry_backoff sC4 tC4 1 "OK" "boom" "boom" "down" "down" "down"
    (by norm_num) rfl rfl rfl rfl rfl rfl

/-- C5: when every underlying model call raises, `GuardAgent.check_safety`
does not propagate the exception and returns a passing `ModerationResult`
with issues `["safety_check_error"]`, and `ToneAgent.validate_tone`
likewise returns a passing result with issues `["tone_validation_error"]`. -/
theorem fail_open_on_model_outage (s : ℕ → ServiceResp) (e : ℕ → String) (d lat : ℚ)
    (h : ∀ i, attemptOnce (s i) = .error (e i)) :
    check_safety_via_groq s d lat =
      ({ passes := true, confidence := 0, issues := ["safety_check_error"],
         latency_ms := lat }, lat) ∧
    validate_tone_via_groq s d lat =
      ({ passes := true, confidence := 0, issues := ["tone_validation_error"],
         latency_ms := lat }, lat) := by
  constructor
  · simp [check_safety_via_groq, check_safety, make_groq_request, groqAttempts,
      h 0, h 1, h 2]
  · simp [validate_tone_via_groq, validate_tone, make_groq_request, groqAttempts,
      h 0, h 1, h 2]

/-- Service for the C5 witness: every call raises. -/
def sC5 : ℕ → ServiceResp := fun _ => .raiseExc "net down"

/-- Witness for C5 at a concrete always-raising service. -/
theorem fail_open_on_model_outage_witness :
    check_safety_via_groq sC5 1 2 =
      ({ passes := true, confidence := 0, issues := ["safety_check_error"],
         latency_ms := 2 }, 2) ∧
    validate_tone_via_groq sC5 1 2 =
      ({ passes := true, confidence := 0, issues := ["tone_validation_error"],
         latency_ms := 2 }, 2) :=
  fail_open_on_model_outage sC5 (fun _ => "net down") 1 2 (fun _ => rfl)

/-- An outcome resolved for a different review request (request two). -/
def otherOutcome : HumanReviewResult :=
  { original_response := "draft two", edited_response := "edited two",
    human_time_ms := 1500, customer_input := "input two",
    review_notes := none }

/-- C1 counterexample: with request one pending and request two's outcome
arriving first on the shared `result_queue`, `request_review` (and hence
`_request_review_via_tracker`) invoked for request one returns request
two's outcome — an outcome that did not originate from request one. -/
theorem request_review_cross_wires :
    (request_review "input one" "draft one" 300 [otherOutcome]).customer_input ≠
      "input one" ∧
    (request_review "input one" "draft one" 300 [otherOutcome]).original_response ≠
      "draft one" ∧
    request_review "input one" "draft one" 300 [otherOutcome] = otherOutcome ∧
    request_review_via_tracker "input one" "draft one" 300 [otherOutcome] =
      otherOutcome := by
  refine ⟨?_, ?_, rfl, rfl⟩ <;> decide

/-- C1 amended: `request_review` returns the first outcome available on the
shared result queue regardless of its origin; consequently it returns an
outcome originating from request R whenever every outcome it can observe
during its wait originates from R — in particular when R is the only
pending request — the timeout fallback originating from R as well. -/
theorem request_review_origin_when_sole_pending
    (customer_input ai_response : String) (timeout : ℚ)
    (arrivals : List HumanReviewResult)
    (h : ∀ o ∈ arrivals, o.customer_input = customer_input ∧
      o.original_response = ai_response) :
    (request_review customer_input ai_response timeout arrivals).customer_input =
      customer_input ∧
    (request_review customer_input ai_response timeout arrivals).original_response =
      ai_response := by
  cases arrivals with
  | nil => exact ⟨rfl, rfl⟩
  | cons a rest => exact h a (List.mem_cons_self a rest)

/-- The outcome request one's own reviewer resolves, for the C1 witness. -/
def ownOutcome : HumanReviewResult :=
  { original_response := "draft one", edited_response := "edited one",
    human_time_ms := 1200, customer_input := "input one",
    review_notes := some "tightened wording" }

/-- Witness for C1 (amended) with request one the sole pending request. -/
theorem request_review_origin_when_sole_pending_witness :
    (request_review "input one" "draft one" 300 [ownOutcome]).customer_input =
      "input one" ∧
    (request_review "input one" "draft one" 300 [ownOutcome]).original_response =
      "draft one" :=
  request_review_origin_when_sole_pending "input one" "draft one" 300 [ownOutcome]
    (by decide)

/-- C8: when no outcome is resolved within the timeout (no result appears
on the shared queue during the wait), the producer-side wait returns — it
does not raise — the synthetic outcome whose `edited_response` is the
original AI draft, whose `human_time_ms` is `timeout * 1000`, and whose
`review_notes` indicate a timeout; both `request_review` and
`_request_review_via_tracker` behave this way. -/
theorem request_review_timeout_fallback (customer_input ai_response : String)
    (timeout : ℚ) :
    request_review customer_input ai_response timeout [] =
      { original_response := ai_response, edited_response := ai_response,
        human_time_ms := timeout * 1000, customer_input := customer_input,
        review_notes := some "Timed out - using original response" } ∧
    request_review_via_tracker customer_input ai_response timeout [] =
      { original_response := ai_response, edited_response := ai_response,
        human_time_ms := timeout * 1000, customer_input := customer_input,
        review_notes := some "Timed out - using original response" } :=
  ⟨rfl, rfl⟩

/-- A mutation of the progress map touches an entry only when its key is
the given id, so an absent id makes it the identity. -/
theorem progress_map_noop (m : ProgressMap) (scenario_id : String)
    (f : PipelineProgress → PipelineProgress)
    (h : containsKey m scenario_id = false) :
    m.map (fun e => if e.1 = scenario_id then (e.1, f e.2) else e) = m := by
  induction m with
  | nil => rfl
  | cons a rest ih =>
    simp only [containsKey, List.any_cons, Bool.or_eq_false_iff,
      decide_eq_false_iff_not] at h
    simp only [List.map_cons, if_neg h.1]
    rw [ih h.2]

/-- C9: on a scenario id not present in the progress map — in particular
every previously tracked id after `reset_demo` — `track_pipeline_step`,
`complete_pipeline_step` and `complete_pipeline` leave the map unchanged,
and a progress read returns no progress; after a reset the map is empty,
so a late write to any id is a no-op and the id stays unreadable. -/
theorem tracker_unknown_id_noop (m : ProgressMap) (st : ManagerState)
    (scenario_id stale_id : String) (now : ℚ) (step_name details status : String)
    (model_used : Option String)
    (h : containsKey m scenario_id = false) :
    track_pipeline_step m scenario_id now step_name details model_used = m ∧
    complete_pipeline_step m scenario_id now details status = m ∧
    complete_pipeline m scenario_id now = m ∧
    get_progress m scenario_id = none ∧
    (reset_demo st).pipeline_progress = [] ∧
    track_pipeline_step (reset_demo st).pipeline_progress stale_id now
      step_name details model_used = (reset_demo st).pipeline_progress ∧
    get_progress (reset_demo st).pipeline_progress stale_id = none := by
  have h' : ∀ e ∈ m, ¬(e.1 = scenario_id) := by
    simpa [containsKey, List.any_eq_false] using h
  refine ⟨?_, ?_, ?_, ?_, rfl, rfl, rfl⟩
  · unfold track_pipeline_step
    exact progress_map_noop m scenario_id
      (fun p => add_step p now step_name details model_used) h
  · unfold complete_pipeline_step
    exact progress_map_noop m scenario_id
      (fun p => complete_current_step p now details status) h
  · unfold complete_pipeline
    exact progress_map_noop m scenario_id (fun p => { p with end_time := some now }) h
  · simp only [get_progress]
    rw [List.find?_eq_none.mpr]
    · rfl
    · intro x hx
      simpa using h' x hx

/-- A one-entry progress map under a different key, for the C9 witness. -/
def mC9 : ProgressMap :=
  [("interactive_1",
    { scenario_id := "interactive_1", customer_input := "hello", steps := [],
      current_step := 0, total_steps := 6, start_time := some 100,
      end_time := none })]

/-- Demo-manager state holding `mC9`, for the C9 witness. -/
def stC9 : ManagerState :=
  { pipeline_progress := mC9, review_queue := [], result_queue := [],
    active_reviews := [], demo_state := "running", current_scenario_index := 0,
    demo_results := [], current_scenario_id := some "interactive_1" }

/-- Witness for C9 at a concrete map and an unknown id. -/
theorem tracker_unknown_id_noop_witness :
    track_pipeline_step mC9 "interactive_2" 101 "safety_check" "" none = mC9 ∧
    complete_pipeline_step mC9 "interactive_2" 101 "" "completed" = mC9 ∧
    complete_pipeline mC9 "interactive_2" 101 = mC9 ∧
    get_progress mC9 "interactive_2" = none ∧
    (reset_demo stC9).pipeline_progress = [] ∧
    track_pipeline_step (reset_demo stC9).pipeline_progress "interactive_1" 101
      "safety_check" "" none = (reset_demo stC9).pipeline_progress ∧
    get_progress (reset_demo stC9).pipeline_progress "interactive_1" = none :=
  tracker_unknown_id_noop mC9 stC9 "interactive_2" "interactive_1" 101
    "safety_check" "" "completed" none (by decide)

/-- `updateLast` rewrites exactly the last element. -/
theorem updateLast_cons_cons (f : PipelineStep → PipelineStep) (a : PipelineStep)
    (l : List PipelineStep) (hne : l ≠ []) :
    updateLast f (a :: l) = a :: updateLast f l := by
  cases l with
  | nil => exact absurd rfl hne
  | cons b rest => rfl

theorem updateLast_append (f : PipelineStep → PipelineStep)
    (init : List PipelineStep) (last : PipelineStep) :
    updateLast f (init ++ [last]) = init ++ [f last] := by
  induction init with
  | nil => rfl
  | cons a rest ih =>
    rw [List.cons_append, updateLast_cons_cons f a _ (by simp), ih, List.cons_append]

/-- C10: `complete_current_step` on a progress with steps mutates only the
last step — setting its `end_time` and `status`, and keeping its existing
`details` when called with the empty details string — leaving earlier
steps and every other field unchanged; on an empty step list it is the
identity. -/
theorem complete_current_step_frame (p : PipelineProgress) (now : ℚ)
    (details status : String) :
    (p.steps = [] → complete_current_step p now details status = p) ∧
    (∀ init last, p.steps = init ++ [last] →
      complete_current_step p now details status =
        { p with steps := init ++
            [{ last with
                end_time := some now
                status := status
                details := if details = "" then last.details else details }] }) := by
  constructor
  · intro h
    simp [complete_current_step, h]
  · intro init last h
    simp [complete_current_step, h, updateLast_append]

/-- Two completed/running steps for the C10 witness. -/
def stepA : PipelineStep :=
  { step_name := "safety_check", start_time := 100, end_time := some 101,
    status := "completed", details := "Safety check PASSED", model_used := none }

/-- The currently running step for the C10 witness. -/
def stepB : PipelineStep :=
  { step_name := "response_generation", start_time := 101, end_time := none,
    status := "running", details := "Generating response", model_used := none }

/-- A progress with no steps, for the C10 witness. -/
def emptyProg : PipelineProgress :=
  { scenario_id := "interactive_1", customer_input := "hello", steps := [],
    current_step := 0, total_steps := 6, start_time := some 100, end_time := none }

/-- A progress whose last step is `stepB`, for the C10 witness. -/
def twoStepProg : PipelineProgress :=
  { scenario_id := "interactive_1", customer_input := "hello",
    steps := [stepA, stepB], current_step := 2, total_steps := 6,
    start_time := some 100, end_time := none }

/-- Witness for C10: the empty-steps no-op, and an empty-details completion
that touches only the last step and keeps its details text. -/
theorem complete_current_step_frame_witness :
    complete_current_step emptyProg 102 "done" "completed" = emptyProg ∧
    complete_current_step twoStepProg 102 "" "completed" =
      { twoStepProg with steps := [stepA] ++
          [{ stepB with
              end_time := some 102
              status := "completed"
              details := if "" = "" then stepB.details else "" }] } :=
  ⟨(complete_current_step_frame emptyProg 102 "done" "completed").1 rfl,
   (complete_current_step_frame twoStepProg 102 "" "completed").2 [stepA] stepB rfl⟩

/-- A passing moderation result used by the counterexample/witness stage
environments. -/
def passMod : ModerationResult :=
  { passes := true, confidence := 95 / 100, issues := [], latency_ms := 3 }

/-- A failing safety moderation result (category O3, issue `weapons`). -/
def failMod : ModerationResult :=
  { passes := false, confidence := 95 / 100, issues := ["weapons"], latency_ms := 5 }

/-- Stage environment whose initial safety check fails under category O3
with latency 5 ms. -/
def envC2 : StageEnv :=
  { safety1 := (failMod, 5)
    gen_response := ("We can certainly help with that.", 7)
    review_arrivals := []
    human_elapsed_ms := 0
    safety2 := fun _ => (passMod, 3)
    tone1 := fun _ => (passMod, 4)
    rewrite_pro := fun _ _ => ("We can certainly help with that.", 6)
    tone2 := fun _ => (passMod, 4)
    elapsed_ms := 42 }

/-- C2 counterexample: on an input whose first safety check fails with
latency 5, the failed `PipelineResult` records `ai_time = 0`
(`_create_failed_result` hardcodes it), not the first safety check's
latency as the claim states. -/
theorem failed_safety1_ai_time_not_first_check_latency :
    (process_single_scenario envC2 "scenario_1" "how do I get a weapon").1.ai_time = 0 ∧
    envC2.safety1.2 = 5 ∧
    (process_single_scenario envC2 "scenario_1" "how do I get a weapon").1.ai_time ≠
      envC2.safety1.2 := by
  refine ⟨rfl, rfl, ?_⟩
  have h1 : (process_single_scenario envC2 "scenario_1" "how do I get a weapon").1.ai_time
    = 0 := rfl
  have h2 : envC2.safety1.2 = 5 := rfl
  rw [h1, h2]
  norm_num

/-- C2 (amended): when the initial safety check fails, the run stops after
stage 1 (no later stage is invoked and the outcome depends only on the
first check), returning a `PipelineResult` with `success = false`,
`safety_issues` equal to the failing check's issue codes, `final_response`
carrying the fixed `"Processing failed: "` prefix, and `ai_time = 0` (the
failed result records no AI time). -/
theorem safety1_fail_stops_pipeline (env : StageEnv)
    (scenario_id customer_input : String)
    (h : env.safety1.1.passes = false) :
    process_single_scenario env scenario_id customer_input =
      (create_failed_result scenario_id customer_input "Initial safety check failed"
        env.safety1.1.issues [], [StageTag.safetyCheck1]) ∧
    (process_single_scenario env scenario_id customer_input).1.success = false ∧
    (process_single_scenario env scenario_id customer_input).1.safety_issues =
      env.safety1.1.issues ∧
    (process_single_scenario env scenario_id customer_input).1.ai_time = 0 ∧
    "Processing failed: ".data.isPrefixOf
      (process_single_scenario env scenario_id customer_input).1.final_response.data =
        true ∧
    (process_single_scenario env scenario_id customer_input).2 =
      [StageTag.safetyCheck1] := by
  have he : process_single_scenario env scenario_id customer_input =
      (create_failed_result scenario_id customer_input "Initial safety check failed"
        env.safety1.1.issues [], [StageTag.safetyCheck1]) := by
    simp [process_single_scenario, h]
  refine ⟨he, ?_, ?_, ?_, ?_, ?_⟩
  · simp [he, create_failed_result]
  · simp [he, create_failed_result]
  · simp [he, create_failed_result]
  · rw [he]
    show "Processing failed: ".data.isPrefixOf
      ("Processing failed: " ++ "Initial safety check failed").data = true
    decide
  · simp [he]

/-- Witness for C2 (amended) at the concrete failing environment. -/
theorem safety1_fail_stops_pipeline_witness :
    process_single_scenario envC2 "scenario_2" "sell me a gun" =
      (create_failed_result "scenario_2" "sell me a gun" "Initial safety check failed"
        envC2.safety1.1.issues [], [StageTag.safetyCheck1]) ∧
    (process_single_scenario envC2 "scenario_2" "sell me a gun").1.success = false ∧
    (process_single_scenario envC2 "scenario_2" "sell me a gun").1.safety_issues =
      envC2.safety1.1.issues ∧
    (process_single_scenario envC2 "scenario_2" "sell me a gun").1.ai_time = 0 ∧
    "Processing failed: ".data.isPrefixOf
      (process_single_scenario envC2 "scenario_2" "sell me a gun").1.final_response.data =
        true ∧
    (process_single_scenario envC2 "scenario_2" "sell me a gun").2 =
      [StageTag.safetyCheck1] :=
  safety1_fail_stops_pipeline envC2 "scenario_2" "sell me a gun" (by decide)

/-- C6: when the first tone validation fails and the conditional rewrite
runs, the terminal `PipelineResult` reports `tone_issues` equal to the
pre-rewrite (triggering) issue list — the post-rewrite recheck outcome
(`env.tone2`) is unconstrained, so this holds even if the recheck fails
again — with `success = true` and the rewritten text delivered as
`final_response`. -/
theorem rewrite_reports_triggering_tone_issues (env : StageEnv)
    (scenario_id customer_input : String)
    (h1 : env.safety1.1.passes = true)
    (h2 : (env.safety2 env.gen_response.1).1.passes = true)
    (h3 : (env.tone1 env.gen_response.1).1.passes = false) :
    (process_single_scenario env scenario_id customer_input).1.tone_issues =
      (env.tone1 env.gen_response.1).1.issues ∧
    (process_single_scenario env scenario_id customer_input).1.success = true ∧
    (process_single_scenario env scenario_id customer_input).1.final_response =
      (env.rewrite_pro env.gen_response.1 (env.tone1 env.gen_response.1).1.issues).1 := by
  refine ⟨?_, ?_, ?_⟩ <;> simp [process_single_scenario, h1, h2, h3]

/-- A tone-failing moderation result (issue `casual_language`). -/
def casualMod : ModerationResult :=
  { passes := false, confidence := 9 / 10, issues := ["casual_language"],
    latency_ms := 4 }

/-- Stage environment for the C6 witness: tone validation fails with
`casual_language`, the rewrite produces new text, and the post-rewrite
tone recheck *fails again*. -/
def envC6 : StageEnv :=
  { safety1 := (passMod, 3)
    gen_response := ("Thanks for reaching out! We will get back to you ASAP!", 7)
    review_arrivals := []
    human_elapsed_ms := 0
    safety2 := fun _ => (passMod, 3)
    tone1 := fun _ => (casualMod, 4)
    rewrite_pro := fun _ _ => ("Thank you for contacting us; we will respond promptly.", 6)
    tone2 := fun _ => (casualMod, 4)
    elapsed_ms := 42 }

/-- Witness for C6 at a concrete run whose post-rewrite recheck fails. -/
theorem rewrite_reports_triggering_tone_issues_witness :
    (process_single_scenario envC6 "scenario_3" "Where is my order?").1.tone_issues =
      (envC6.tone1 envC6.gen_response.1).1.issues ∧
    (process_single_scenario envC6 "scenario_3" "Where is my order?").1.success = true ∧
    (process_single_scenario envC6 "scenario_3" "Where is my order?").1.final_response =
      (envC6.rewrite_pro envC6.gen_response.1
        (envC6.tone1 envC6.gen_response.1).1.issues).1 :=
  rewrite_reports_triggering_tone_issues envC6 "scenario_3" "Where is my order?"
    (by decide) (by decide) (by decide)

/-- The outcome a human reviewer resolves during the C3 counterexample run:
the reviewer edits the draft. -/
def editedOutcome : HumanReviewResult :=
  { original_response := "Hi there!", edited_response := "Good afternoon.",
    human_time_ms := 2000, customer_input := "Where is my order?",
    review_notes := some "rewrote greeting" }

/-- Stage environment for the C3 counterexample and witness: every check
passes, and a reviewer's edited outcome is available on the result queue. -/
def envC3 : StageEnv :=
  { safety1 := (passMod, 3)
    gen_response := ("Hi there!", 7)
    review_arrivals := [editedOutcome]
    human_elapsed_ms := 2000
    safety2 := fun _ => (passMod, 3)
    tone1 := fun _ => (passMod, 4)
    rewrite_pro := fun _ _ => ("Hi there!", 6)
    tone2 := fun _ => (passMod, 4)
    elapsed_ms := 42 }

/-- C3 counterexample: with the configured human-review timeout positive
(config default 300) and a reviewer editing the draft, the untracked
variant — which skips human review unconditionally — delivers the AI
draft, while the tracked variant delivers the reviewer's edit: the two
variants do not run identical stage logic and their terminal
`PipelineResult`s differ. -/
theorem tracked_untracked_differ_with_review :
    (process_single_scenario envC3 "scenario_4" "Where is my order?").1.final_response =
      "Hi there!" ∧
    (process_single_scenario_with_tracking 300 envC3 "scenario_4"
      "Where is my order?").1.final_response = "Good afternoon." ∧
    (process_single_scenario envC3 "scenario_4" "Where is my order?").1 ≠
      (process_single_scenario_with_tracking 300 envC3 "scenario_4"
        "Where is my order?").1 ∧
    (process_single_scenario envC3 "scenario_4" "Where is my order?").2 ≠
      (process_single_scenario_with_tracking 300 envC3 "scenario_4"
        "Where is my order?").2.1 := by
  refine ⟨rfl, rfl, fun h => ?_, fun h => ?_⟩
  · have hf := congrArg PipelineResult.final_response h
    rw [show (process_single_scenario envC3 "scenario_4"
      "Where is my order?").1.final_response = "Hi there!" from rfl] at hf
    rw [show (process_single_scenario_with_tracking 300 envC3 "scenario_4"
      "Where is my order?").1.final_response = "Good afternoon." from rfl] at hf
    exact absurd hf (by decide)
  · rw [show (process_single_scenario envC3 "scenario_4" "Where is my order?").2 =
      [StageTag.safetyCheck1, StageTag.responseGeneration, StageTag.safetyCheck2,
       StageTag.toneValidation] from rfl] at h
    rw [show (process_single_scenario_with_tracking 300 envC3 "scenario_4"
      "Where is my order?").2.1 =
      [StageTag.safetyCheck1, StageTag.responseGeneration] ++ [StageTag.humanReview] ++
        [StageTag.safetyCheck2, StageTag.toneValidation] from rfl] at h
    exact absurd h (by decide)

/-- C3 (amended): whenever human review is disabled (configured timeout
not positive) the untracked and tracked variants run identical stage logic
and produce equal terminal `PipelineResult`s, the tracked variant
differing only in emitting tracker step records; with a positive timeout
the tracked variant additionally performs the human-review stage, whose
outcome can change `final_response` and `human_time`. -/
theorem tracked_untracked_equal_when_review_disabled (cfg : ℚ) (env : StageEnv)
    (scenario_id customer_input : String) (h : ¬ cfg > 0) :
    (process_single_scenario_with_tracking cfg env scenario_id customer_input).1 =
      (process_single_scenario env scenario_id customer_input).1 ∧
    (process_single_scenario_with_tracking cfg env scenario_id customer_input).2.1 =
      (process_single_scenario env scenario_id customer_input).2 := by
  cases hp1 : env.safety1.1.passes with
  | false =>
    constructor <;>
      simp [process_single_scenario_with_tracking, process_single_scenario, h, hp1]
  | true =>
    cases hp2 : (env.safety2 env.gen_response.1).1.passes with
    | false =>
      constructor <;>
        simp [process_single_scenario_with_tracking, process_single_scenario, h, hp1, hp2]
    | true =>
      cases hp3 : (env.tone1 env.gen_response.1).1.passes with
      | false =>
        constructor <;>
          simp [process_single_scenario_with_tracking, process_single_scenario, h,
            hp1, hp2, hp3]
      | true =>
        constructor <;>
          simp [process_single_scenario_with_tracking, process_single_scenario, h,
            hp1, hp2, hp3]

/-- Witness for C3 (amended): with the review timeout 0 the two variants
agree on `envC3` even though a reviewer outcome is queued. -/
theorem tracked_untracked_equal_when_review_disabled_witness :
    (process_single_scenario_with_tracking 0 envC3 "scenario_5"
      "Where is my order?").1 =
      (process_single_scenario envC3 "scenario_5" "Where is my order?").1 ∧
    (process_single_scenario_with_tracking 0 envC3 "scenario_5"
      "Where is my order?").2.1 =
      (process_single_scenario envC3 "scenario_5" "Where is my order?").2 :=
  tracked_untracked_equal_when_review_disabled 0 envC3 "scenario_5"
    "Where is my order?" (by norm_num)

end GroqCS
